import Mathlib

/-!
A shallow embedding of the catty oneshot channel (src/lib.rs) and proofs
about its state machine.

The channel state is the Rust `enum State<T>`; a waker is modelled as an
opaque natural-number identifier.  Each public operation locks the shared
cell and atomically replaces the state through `InnerArc::replace_state`,
so every operation is embedded as a pure function from the old state to its
return value, the new state, and the list of waker identifiers on which
`wake()` was invoked inside the closure.
-/

namespace Catty

/-- The channel state, mirroring `enum State<T>` in src/lib.rs.  The stored
waker is modelled by an opaque identifier. -/
inductive State (T : Type) where
  | receiverNotYetPolled : State T
  | receiverWaiting (waker : Nat) : State T
  | itemSent (item : T) : State T
  | disconnected : State T
deriving DecidableEq

/-- Mirrors `impl Default for State`: the default state is
`ReceiverNotYetPolled`. -/
def State.default {T : Type} : State T := State.receiverNotYetPolled

/-- Mirrors `pub struct Disconnected`, the zero-field error value. -/
inductive Disconnected where
  | mk
deriving DecidableEq

/-- Mirrors `std::task::Poll`. -/
inductive Poll (A : Type) where
  | ready (val : A)
  | pending
deriving DecidableEq

variable {T : Type}

/-- The closure passed to `replace_state` by `Sender::send`, in the exact
match order of the source (`Disconnected`, then `ReceiverWaiting`, then the
wildcard).  Returns (return value, new state, wakers woken inside the
closure). -/
def sendStep (item : T) : State T → Except T Unit × State T × List Nat
  | State.disconnected => (Except.error item, State.disconnected, [])
  | State.receiverWaiting waker => (Except.ok (), State.itemSent item, [waker])
  | _ => (Except.ok (), State.itemSent item, [])

/-- The closure passed to `replace_state` by `impl Drop for InnerArc`.
This hook runs whenever either handle releases its `InnerArc`: on sender
drop, on receiver drop, and when `send` consumes the sender. -/
def innerDrop : State T → State T × List Nat
  | State.receiverWaiting waker => (State.disconnected, [waker])
  | State.itemSent it => (State.itemSent it, [])
  | _ => (State.disconnected, [])

/-- Dropping the `Sender` handle drops its `InnerArc`, running `innerDrop`. -/
def senderDrop : State T → State T × List Nat := innerDrop

/-- Dropping the `Receiver` handle drops its `InnerArc`, running `innerDrop`. -/
def receiverDrop : State T → State T × List Nat := innerDrop

/-- The full effect of `Sender::send(self, item)`: the `replace_state` call
of the `send` body, followed by the implicit drop of the consumed sender
(which drops its `InnerArc` and runs the drop hook). -/
def sendOp (item : T) (s : State T) : Except T Unit × State T × List Nat :=
  let stepped := sendStep item s
  let dropped := innerDrop stepped.2.1
  (stepped.1, dropped.1, stepped.2.2 ++ dropped.2)

/-- The closure passed to `replace_state` by `Receiver::try_recv`. -/
def tryRecvStep : State T → Except Disconnected (Option T) × State T
  | State.itemSent item => (Except.ok (some item), State.disconnected)
  | State.disconnected => (Except.error Disconnected.mk, State.disconnected)
  | old => (Except.ok none, old)

/-- The closure passed to `replace_state` by `Receiver::poll_recv`; `waker`
is the identifier of the waker cloned from the current `Context`. -/
def pollRecvStep (waker : Nat) : State T → Poll (Except Disconnected T) × State T
  | State.itemSent item => (Poll.ready (Except.ok item), State.disconnected)
  | State.disconnected => (Poll.ready (Except.error Disconnected.mk), State.disconnected)
  | _ => (Poll.pending, State.receiverWaiting waker)

/-- Mirrors `impl Future for Receiver`: `poll` simply delegates to
`poll_recv`. -/
def futurePoll (waker : Nat) (s : State T) : Poll (Except Disconnected T) × State T :=
  pollRecvStep waker s

/-- Observable events of one `replace_state` call.  The source acquires the
spin lock, takes the old state, runs the closure (which may call `wake`),
stores the new state, and only then releases the lock when the guard goes
out of scope. -/
inductive Event where
  | lockAcquire
  | wake (waker : Nat)
  | lockRelease
deriving DecidableEq

/-- The event trace of one `replace_state` call whose closure wakes the
given wakers: the lock is acquired, the closure runs (performing the
wakes), the new state is stored, and the guard releases the lock at the end
of the call. -/
def replaceStateEvents (wakes : List Nat) : List Event :=
  Event.lockAcquire :: (wakes.map Event.wake ++ [Event.lockRelease])

/-- Event trace of the `replace_state` call inside `Sender::send`. -/
def sendEvents (item : T) (s : State T) : List Event :=
  replaceStateEvents (sendStep item s).2.2

/-- Event trace of the `replace_state` call inside the `InnerArc` drop hook. -/
def innerDropEvents (s : State T) : List Event :=
  replaceStateEvents (innerDrop s).2

/-- Decides whether every `wake` event of a trace occurs only after a
`lockRelease` event: scanning left to right, the first of the two kinds of
event encountered must be the release. -/
def wakeOnlyAfterRelease : List Event → Bool
  | [] => true
  | Event.lockRelease :: _ => true
  | Event.wake _ :: _ => false
  | Event.lockAcquire :: rest => wakeOnlyAfterRelease rest

/-- A receive attempt by the receiver: `try_recv` or a poll with a waker. -/
inductive RecvOp where
  | tryRecv
  | poll (waker : Nat)
deriving DecidableEq

/-- Classified outcome of one receive attempt. -/
inductive RecvResult (T : Type) where
  | value (v : T)
  | empty
  | disconnectedError
deriving DecidableEq

/-- Run one receive attempt, classifying the result: `value v` for
`Ok(Some(v))` or `Ready(Ok(v))`, `empty` for `Ok(None)` or `Pending`, and
`disconnectedError` for the `Disconnected` error of either operation. -/
def runRecv : RecvOp → State T → RecvResult T × State T
  | RecvOp.tryRecv, s =>
    match tryRecvStep s with
    | (Except.ok (some v), s2) => (RecvResult.value v, s2)
    | (Except.ok none, s2) => (RecvResult.empty, s2)
    | (Except.error _, s2) => (RecvResult.disconnectedError, s2)
  | RecvOp.poll w, s =>
    match pollRecvStep w s with
    | (Poll.ready (Except.ok v), s2) => (RecvResult.value v, s2)
    | (Poll.ready (Except.error _), s2) => (RecvResult.disconnectedError, s2)
    | (Poll.pending, s2) => (RecvResult.empty, s2)

/-- Run a sequence of receive attempts, collecting the results. -/
def runRecvs : List RecvOp → State T → List (RecvResult T) × State T
  | [], s => ([], s)
  | op :: ops, s =>
    let step := runRecv op s
    let rest := runRecvs ops step.2
    (step.1 :: rest.1, rest.2)

/-- Operations the receiver side can perform while the sender is still live
and unconsumed (so before any `send`). -/
inductive ReceiverSideOp where
  | tryRecv
  | poll (waker : Nat)
  | dropReceiver
deriving DecidableEq

/-- State transition of one receiver-side operation. -/
def receiverSideStep : ReceiverSideOp → State T → State T
  | ReceiverSideOp.tryRecv, s => (tryRecvStep s).2
  | ReceiverSideOp.poll w, s => (pollRecvStep w s).2
  | ReceiverSideOp.dropReceiver, s => (receiverDrop s).1

/-- Run a sequence of receiver-side operations. -/
def runReceiverSide (ops : List ReceiverSideOp) (s : State T) : State T :=
  ops.foldl (fun acc op => receiverSideStep op acc) s

/-- Whether the state currently holds a sent item. -/
def State.isItemSent : State T → Bool
  | State.itemSent _ => true
  | _ => false

/-- Any operation on the channel, with its wake effects. -/
inductive Op (T : Type) where
  | send (item : T)
  | dropSender
  | dropReceiver
  | tryRecv
  | poll (waker : Nat)

/-- State transition and wakes of one operation.  A `tryRecv` or a poll
never invokes a waker (a replaced waker is merely dropped). -/
def opStep : Op T → State T → State T × List Nat
  | Op.send item, s => (sendOp item s).2
  | Op.dropSender, s => senderDrop s
  | Op.dropReceiver, s => receiverDrop s
  | Op.tryRecv, s => ((tryRecvStep s).2, [])
  | Op.poll w, s => ((pollRecvStep w s).2, [])

/-- Run a sequence of operations, concatenating all wakes performed. -/
def runOps : List (Op T) → State T → State T × List Nat
  | [], s => (s, [])
  | op :: ops, s =>
    let st := opStep op s
    let rest := runOps ops st.1
    (rest.1, st.2 ++ rest.2)

/-- A sender handle: the index of its shared cell in the heap. -/
structure Sender (T : Type) where
  cell : Nat
deriving DecidableEq

/-- A receiver handle: the index of its shared cell in the heap. -/
structure Receiver (T : Type) where
  cell : Nat
deriving DecidableEq

/-- Mirrors `pub fn oneshot`: against a heap of channel cells, allocate one
fresh cell holding `State::default()` and return the two handles, both
referring to that same cell.  The function is total: construction has no
fallible path. -/
def oneshot (heap : List (State T)) : (Sender T × Receiver T) × List (State T) :=
  ((⟨heap.length⟩, ⟨heap.length⟩), heap ++ [State.default])

/-! ## Helper lemmas -/

theorem runRecv_itemSent (op : RecvOp) (v : T) :
    runRecv op (State.itemSent v) = (RecvResult.value v, State.disconnected) := by
  cases op <;> rfl

theorem runRecv_disconnected (op : RecvOp) :
    runRecv op (State.disconnected : State T) =
      (RecvResult.disconnectedError, State.disconnected) := by
  cases op <;> rfl

theorem runRecvs_disconnected (ops : List RecvOp) :
    runRecvs ops (State.disconnected : State T) =
      (ops.map fun _ => RecvResult.disconnectedError, State.disconnected) := by
  induction ops with
  | nil => rfl
  | cons op ops ih => simp [runRecvs, runRecv_disconnected, ih]

theorem isItemSent_receiverSideStep (op : ReceiverSideOp) (s : State T)
    (h : s.isItemSent = false) : (receiverSideStep op s).isItemSent = false := by
  cases op <;> cases s <;>
    simp_all [receiverSideStep, tryRecvStep, pollRecvStep, receiverDrop, innerDrop,
      State.isItemSent]

theorem isItemSent_runReceiverSide (ops : List ReceiverSideOp) (s : State T)
    (h : s.isItemSent = false) : (runReceiverSide ops s).isItemSent = false := by
  induction ops generalizing s with
  | nil => simpa [runReceiverSide] using h
  | cons op ops ih =>
    exact ih _ (isItemSent_receiverSideStep op s h)

/-! ## Claims -/

/-- C1: Single delivery.  If `send(v)` succeeds then the state becomes
`ItemSent v`, exactly one subsequent successful receive (`try_recv` or
poll) returns `v` — the first one, which moves the state to `Disconnected`
— and every later receive attempt returns the `Disconnected` error, never a
stale value. -/
theorem single_delivery (v : T) (s0 : State T) (ops : List RecvOp)
    (hsend : (sendOp v s0).1 = Except.ok ()) :
    (sendOp v s0).2.1 = State.itemSent v ∧
    (∀ op : RecvOp, runRecv op (State.itemSent v) = (RecvResult.value v, State.disconnected)) ∧
    (runRecvs ops (State.itemSent v)).1 =
      (match ops with
       | [] => []
       | _ :: rest => RecvResult.value v :: rest.map fun _ => RecvResult.disconnectedError) := by
  refine ⟨?_, fun op => runRecv_itemSent op v, ?_⟩
  · cases s0 with
    | disconnected => exact absurd hsend (by simp [sendOp, sendStep])
    | receiverNotYetPolled => rfl
    | receiverWaiting w => rfl
    | itemSent x => rfl
  · cases ops with
    | nil => rfl
    | cons op rest => simp [runRecvs, runRecv_itemSent, runRecvs_disconnected]

/-- Witness for `single_delivery` at `v = 7`, starting from the initial
state, with receives `try_recv` then a poll. -/
theorem single_delivery_witness :
    (sendOp (7 : Nat) State.receiverNotYetPolled).2.1 = State.itemSent 7 ∧
    (runRecvs [RecvOp.tryRecv, RecvOp.poll 3] (State.itemSent (7 : Nat))).1 =
      [RecvResult.value 7, RecvResult.disconnectedError] := by
  have h := single_delivery (7 : Nat) State.receiverNotYetPolled
    [RecvOp.tryRecv, RecvOp.poll 3] rfl
  exact ⟨h.1, h.2.2⟩

/-- C2: `Sender::send` follows the transition table: `ReceiverNotYetPolled`
goes to `ItemSent item` returning ok with no wake; `ReceiverWaiting w`
wakes `w` and goes to `ItemSent item` returning ok; `Disconnected` is left
unchanged and the item is handed back as an error; and `ItemSent` cannot
occur when `send` is called, since every state reachable from the initial
state by receiver-side operations alone is not `ItemSent`. -/
theorem send_transitions :
    (∀ item : T, sendStep item State.receiverNotYetPolled =
      (Except.ok (), State.itemSent item, [])) ∧
    (∀ (item : T) (w : Nat), sendStep item (State.receiverWaiting w) =
      (Except.ok (), State.itemSent item, [w])) ∧
    (∀ item : T, sendStep item State.disconnected =
      (Except.error item, State.disconnected, [])) ∧
    (∀ ops : List ReceiverSideOp,
      (runReceiverSide ops (State.receiverNotYetPolled : State T)).isItemSent = false) :=
  ⟨fun _ => rfl, fun _ _ => rfl, fun _ => rfl,
    fun ops => isItemSent_runReceiverSide ops State.receiverNotYetPolled rfl⟩

/-- C3: the asynchronous poll follows the transition table: `ItemSent item`
yields ready ok and moves to `Disconnected`; `Disconnected` yields ready
error and stays; `ReceiverNotYetPolled` and `ReceiverWaiting` yield pending
and store the current waker, overwriting any previous one; and the `Future`
implementation delegates to `poll_recv`. -/
theorem poll_recv_transitions :
    (∀ (w : Nat) (item : T), pollRecvStep w (State.itemSent item) =
      (Poll.ready (Except.ok item), State.disconnected)) ∧
    (∀ w : Nat, pollRecvStep w (State.disconnected : State T) =
      (Poll.ready (Except.error Disconnected.mk), State.disconnected)) ∧
    (∀ w : Nat, pollRecvStep w (State.receiverNotYetPolled : State T) =
      (Poll.pending, State.receiverWaiting w)) ∧
    (∀ w wPrev : Nat, pollRecvStep w (State.receiverWaiting wPrev : State T) =
      (Poll.pending, State.receiverWaiting w)) ∧
    (∀ (w : Nat) (s : State T), futurePoll w s = pollRecvStep w s) :=
  ⟨fun _ _ => rfl, fun _ => rfl, fun _ => rfl, fun _ _ => rfl, fun _ _ => rfl⟩

/-- C4: `Receiver::try_recv` follows the transition table: `ItemSent item`
yields `Ok(Some(item))` and moves to `Disconnected`; `Disconnected` yields
the error and stays; `ReceiverNotYetPolled` and `ReceiverWaiting` yield
`Ok(None)` and leave the state unchanged. -/
theorem try_recv_transitions :
    (∀ item : T, tryRecvStep (State.itemSent item) =
      (Except.ok (some item), State.disconnected)) ∧
    (tryRecvStep (State.disconnected : State T) =
      (Except.error Disconnected.mk, State.disconnected)) ∧
    (tryRecvStep (State.receiverNotYetPolled : State T) =
      (Except.ok none, State.receiverNotYetPolled)) ∧
    (∀ w : Nat, tryRecvStep (State.receiverWaiting w : State T) =
      (Except.ok none, State.receiverWaiting w)) :=
  ⟨fun _ => rfl, rfl, rfl, fun _ => rfl⟩

/-- C5: dropping the `Sender` without a prior `send` runs the drop hook:
`ReceiverWaiting w` wakes `w` and moves to `Disconnected`; `ItemSent` is
left unchanged with no wake; any other state moves to `Disconnected` with
no wake. -/
theorem sender_drop_transitions :
    (∀ w : Nat, senderDrop (State.receiverWaiting w : State T) =
      (State.disconnected, [w])) ∧
    (∀ item : T, senderDrop (State.itemSent item) = (State.itemSent item, [])) ∧
    (senderDrop (State.receiverNotYetPolled : State T) = (State.disconnected, [])) ∧
    (senderDrop (State.disconnected : State T) = (State.disconnected, [])) :=
  ⟨fun _ => rfl, fun _ => rfl, rfl, rfl⟩

/-- C6 counterexample: dropping the receiver from the initial state and
then sending `42` returns `Err(42)`, not `Ok(())` — the receiver drop runs
the shared `InnerArc` drop hook, which moves the state to `Disconnected`. -/
theorem receiver_dropped_send_not_ok :
    (sendOp 42 (receiverDrop (State.receiverNotYetPolled : State Nat)).1).1 =
      Except.error 42 ∧
    ¬ (sendOp 42 (receiverDrop (State.receiverNotYetPolled : State Nat)).1).1 =
      Except.ok () := by
  refine ⟨rfl, fun h => ?_⟩
  simp [receiverDrop, innerDrop, sendOp, sendStep] at h

/-- C6 (amended): dropping the `Receiver` first runs the shared cell drop
hook, which moves the state to `Disconnected` (also from a waiting state);
a subsequent `send(v)` therefore fails, handing `v` back as `Err(v)`, and
the state stays `Disconnected`. -/
theorem receiver_dropped_send_err :
    ((receiverDrop (State.receiverNotYetPolled : State T)).1 = State.disconnected) ∧
    (∀ w : Nat, (receiverDrop (State.receiverWaiting w : State T)).1 = State.disconnected) ∧
    (∀ v : T, sendOp v (receiverDrop (State.receiverNotYetPolled : State T)).1 =
      (Except.error v, State.disconnected, [])) :=
  ⟨rfl, fun _ => rfl, fun _ => rfl⟩

/-- C7: no double-wake.  Two consecutive pending polls before any send
leave only the most recent waker registered; the waker of the first poll is
merely discarded (no wake is emitted by a poll), and a subsequent send
produces exactly the single wake of the most recently registered waker. -/
theorem no_double_wake (v : T) (w1 w2 : Nat) :
    (pollRecvStep w1 (State.receiverNotYetPolled : State T)).1 = Poll.pending ∧
    (pollRecvStep w1 (State.receiverNotYetPolled : State T)).2 = State.receiverWaiting w1 ∧
    (pollRecvStep w2 (State.receiverWaiting w1 : State T)).1 = Poll.pending ∧
    (pollRecvStep w2 (State.receiverWaiting w1 : State T)).2 = State.receiverWaiting w2 ∧
    (runOps [Op.poll w1, Op.poll w2, Op.send v] (State.receiverNotYetPolled : State T)).2 =
      [w2] :=
  ⟨rfl, rfl, rfl, rfl, rfl⟩

/-- C8 counterexample: in the event trace of a send in state
`ReceiverWaiting 5`, the wake occurs strictly between the lock acquisition
and the lock release — while the lock is still held — so it is false that
wake invocations only happen after the lock is released. -/
theorem wake_before_release :
    sendEvents (0 : Nat) (State.receiverWaiting 5) =
      [Event.lockAcquire, Event.wake 5, Event.lockRelease] ∧
    wakeOnlyAfterRelease (sendEvents (0 : Nat) (State.receiverWaiting 5)) = false :=
  ⟨rfl, rfl⟩

/-- C8 (amended): every wake performed by `send` or by the drop hook is
invoked inside the `replace_state` closure while the state lock is held:
the trace is acquire, wake, release, and states that wake nobody produce
the trace acquire, release. -/
theorem wake_under_lock :
    (∀ (item : T) (w : Nat), sendEvents item (State.receiverWaiting w) =
      [Event.lockAcquire, Event.wake w, Event.lockRelease]) ∧
    (∀ item : T, sendEvents item State.receiverNotYetPolled =
      [Event.lockAcquire, Event.lockRelease]) ∧
    (∀ item : T, sendEvents item State.disconnected =
      [Event.lockAcquire, Event.lockRelease]) ∧
    (∀ w : Nat, innerDropEvents (State.receiverWaiting w : State T) =
      [Event.lockAcquire, Event.wake w, Event.lockRelease]) ∧
    (innerDropEvents (State.receiverNotYetPolled : State T) =
      [Event.lockAcquire, Event.lockRelease]) ∧
    (∀ item : T, innerDropEvents (State.itemSent item) =
      [Event.lockAcquire, Event.lockRelease]) :=
  ⟨fun _ _ => rfl, fun _ => rfl, fun _ => rfl, fun _ => rfl, rfl, fun _ => rfl⟩

/-- C9: `oneshot` is total (no fallible path), allocates exactly one new
cell whose initial state is `State::default() = ReceiverNotYetPolled`, and
the returned sender and receiver refer to that same cell. -/
theorem oneshot_construction (heap : List (State T)) :
    ((oneshot heap).1.1.cell = (oneshot heap).1.2.cell) ∧
    ((oneshot heap).1.1.cell = heap.length) ∧
    ((oneshot heap).2.length = heap.length + 1) ∧
    ((oneshot heap).2.getLast? = some State.receiverNotYetPolled) ∧
    ((State.default : State T) = State.receiverNotYetPolled) := by
  refine ⟨rfl, rfl, by simp [oneshot], ?_, rfl⟩
  simp [oneshot, List.getLast?_concat, State.default]

/-- C10: `try_recv` in state `ReceiverWaiting w` returns `Ok(None)` and
leaves the state as `ReceiverWaiting` with the identical waker `w`,
invoking no waker; a subsequent send therefore still wakes exactly `w`. -/
theorem try_recv_preserves_waker :
    (∀ w : Nat, tryRecvStep (State.receiverWaiting w : State T) =
      (Except.ok none, State.receiverWaiting w)) ∧
    (∀ s : State T, opStep Op.tryRecv s = ((tryRecvStep s).2, [])) ∧
    (∀ (w : Nat) (v : T),
      (sendOp v (tryRecvStep (State.receiverWaiting w : State T)).2).2.2 = [w]) :=
  ⟨fun _ => rfl, fun _ => rfl, fun _ _ => rfl⟩

end Catty
